import Mathlib

/-!
Shallow embedding of the Saitek ProFlight HID driver
(`src/hid-saitek-proflight.c`, the later of the two driver revisions in the
file, whose state structs carry accumulators, displays and LED bits).

Machine bytes become `Nat` (always < 256 at call sites), C `int` fields
become `Int`, one-bit bitfields become `Bool`, in-place mutation becomes
state-passing.  The kernel/HID plumbing (locks, allocation, transport) is an
external collaborator; only the allocation size of the DMA buffer and the
byte layout the feature-report builders write are modelled, since the codec
claims depend on them.
-/

/-! ## Constants from the source -/

def PANEL_DIGIT_MINUS : Nat := 0x0e
def PANEL_DIGIT_DOT : Nat := 0xd0
def PANEL_DIGIT_NULL : Nat := 0x0f

def SAITEK_HID_BUF_LEN : Nat := 13

def MULTIPANEL_MODE_ALT : Int := 1
def MULTIPANEL_MODE_VS : Int := 2
def MULTIPANEL_MODE_IAS : Int := 3
def MULTIPANEL_MODE_HDG : Int := 4
def MULTIPANEL_MODE_CRS : Int := 5

def RADIOPANEL_MODE_COM1 : Int := 1
def RADIOPANEL_MODE_COM2 : Int := 2
def RADIOPANEL_MODE_NAV1 : Int := 3
def RADIOPANEL_MODE_NAV2 : Int := 4
def RADIOPANEL_MODE_ADF : Int := 5
def RADIOPANEL_MODE_DME : Int := 6
def RADIOPANEL_MODE_XPDR : Int := 7

def SAITEK_MAX_BTN : Int := 9

def SAITEK_MAX_FLAPS : Int := 99
def SAITEK_MIN_FLAPS : Int := -99
def SAITEK_MAX_PITCH_TRIM : Int := 99
def SAITEK_MIN_PITCH_TRIM : Int := -99
def SAITEK_MAX_KNOB : Int := 99
def SAITEK_MIN_KNOB : Int := -99

def MULTIPANEL_LIGHT_AP : Nat := 0x01
def MULTIPANEL_LIGHT_HDG : Nat := 0x02
def MULTIPANEL_LIGHT_NAV : Nat := 0x04
def MULTIPANEL_LIGHT_IAS : Nat := 0x08
def MULTIPANEL_LIGHT_ALT : Nat := 0x10
def MULTIPANEL_LIGHT_VS : Nat := 0x20
def MULTIPANEL_LIGHT_APR : Nat := 0x40
def MULTIPANEL_LIGHT_REV : Nat := 0x80

/-- Source `CHECK(data[byteno] & mask)`: bit test on a report byte. -/
def maskTest (b m : Nat) : Bool := (b &&& m) != 0

/-! ## Panel state structs -/

/-- Embedding of `struct proflight_multipanel` of the later revision (the `parent`
back-pointer is replaced by passing the session's mode flag explicitly). -/
@[ext] structure Multipanel where
  hdg : Bool
  nav : Bool
  ias : Bool
  alt : Bool
  vs : Bool
  apr : Bool
  rev : Bool
  ap : Bool
  flaps_up : Bool
  flaps_down : Bool
  auto_throttle : Bool
  pitch_trim_up : Bool
  pitch_trim_down : Bool
  knob_right : Bool
  knob_left : Bool
  mode : Int
  ahdg : Int
  anav : Int
  aias : Int
  aalt : Int
  avs : Int
  aapr : Int
  arev : Int
  aap : Int
  flaps : Int
  pitch_trim : Int
  knob : Int
  display0 : List Nat
  display1 : List Nat
  led_hdg : Bool
  led_nav : Bool
  led_ias : Bool
  led_alt : Bool
  led_vs : Bool
  led_apr : Bool
  led_rev : Bool
  led_ap : Bool
  deriving DecidableEq

/-- Embedding of `struct proflight_radiopanel` of the later revision. -/
@[ext] structure Radiopanel where
  actstby0 : Bool
  actstby1 : Bool
  innerknob0_right : Bool
  innerknob0_left : Bool
  outerknob0_right : Bool
  outerknob0_left : Bool
  innerknob1_right : Bool
  innerknob1_left : Bool
  outerknob1_right : Bool
  outerknob1_left : Bool
  mode0 : Int
  mode1 : Int
  aactstby0 : Int
  aactstby1 : Int
  innerknob0 : Int
  outerknob0 : Int
  innerknob1 : Int
  outerknob1 : Int
  display0l : List Nat
  display0r : List Nat
  display1l : List Nat
  display1r : List Nat
  deriving DecidableEq

/-- Panel state fresh from `devm_kzalloc`: every bit and byte zero.
Note the display bytes are the numeric digit code 0, not the blank code. -/
def initialMultipanel : Multipanel :=
  { hdg := false, nav := false, ias := false, alt := false, vs := false
    apr := false, rev := false, ap := false
    flaps_up := false, flaps_down := false, auto_throttle := false
    pitch_trim_up := false, pitch_trim_down := false
    knob_right := false, knob_left := false
    mode := 0
    ahdg := 0, anav := 0, aias := 0, aalt := 0, avs := 0, aapr := 0
    arev := 0, aap := 0
    flaps := 0, pitch_trim := 0, knob := 0
    display0 := List.replicate 5 0, display1 := List.replicate 5 0
    led_hdg := false, led_nav := false, led_ias := false, led_alt := false
    led_vs := false, led_apr := false, led_rev := false, led_ap := false }

/-- Radiopanel state fresh from `devm_kzalloc`. -/
def initialRadiopanel : Radiopanel :=
  { actstby0 := false, actstby1 := false
    innerknob0_right := false, innerknob0_left := false
    outerknob0_right := false, outerknob0_left := false
    innerknob1_right := false, innerknob1_left := false
    outerknob1_right := false, outerknob1_left := false
    mode0 := 0, mode1 := 0
    aactstby0 := 0, aactstby1 := 0
    innerknob0 := 0, outerknob0 := 0, innerknob1 := 0, outerknob1 := 0
    display0l := List.replicate 5 0, display0r := List.replicate 5 0
    display1l := List.replicate 5 0, display1r := List.replicate 5 0 }

/-! ## Edge-triggered accumulation (the `SAITEK_ADJUST_*` macros) -/

/-- Macro `SAITEK_ADJUST_COUNTED_BTN(btn, byteno, mask)`: given the tested bit, the
previous press flag and the press counter, returns the new flag and counter.
The counter increments only on a rising edge and only while below
`SAITEK_MAX_BTN`. -/
def adjustCountedBtn (bit btn : Bool) (abtn : Int) : Bool × Int :=
  if bit then
    if !btn then (true, if abtn < SAITEK_MAX_BTN then abtn + 1 else abtn)
    else (btn, abtn)
  else (false, abtn)

/-- Up half of `SAITEK_ADJUST_COUNTED_ENCDR`: rising edge on the "up" bit
increments the accumulator while below `valmax`; the flag tracks the bit. -/
def adjustEncUp (bit flag : Bool) (v valmax : Int) : Bool × Int :=
  if bit then (true, if !flag && decide (v < valmax) then v + 1 else v)
  else (false, v)

/-- Down half of `SAITEK_ADJUST_COUNTED_ENCDR`.  In the source the
`btn_down = 1` statement sits outside the `if (!btn_down)` (dangling
statement), so whenever the bit is set the flag ends up 1 and the decrement
happens only on a rising edge while above `valmin` — the same shape as the
up half. -/
def adjustEncDown (bit flag : Bool) (v valmin : Int) : Bool × Int :=
  if bit then (true, if !flag && decide (v > valmin) then v - 1 else v)
  else (false, v)

/-! ## Multipanel raw-event decode -/

/-- Mode-selector resolution of `saitek_proflight_multipanel_raw_event`:
priority chain over byte 0 bits 0x01..0x10. -/
def multipanelMode (d0 : Nat) : Int :=
  if maskTest d0 0x01 then MULTIPANEL_MODE_ALT
  else if maskTest d0 0x02 then MULTIPANEL_MODE_VS
  else if maskTest d0 0x04 then MULTIPANEL_MODE_IAS
  else if maskTest d0 0x08 then MULTIPANEL_MODE_HDG
  else if maskTest d0 0x10 then MULTIPANEL_MODE_CRS
  else 0

/-- Body of `saitek_proflight_multipanel_raw_event` for an accepted report
(bytes `d0 d1 d2`), mutating the multipanel state. -/
def multipanelDecode (m : Multipanel) (d0 d1 d2 : Nat) : Multipanel :=
  let rhdg := adjustCountedBtn (maskTest d1 0x01) m.hdg m.ahdg
  let rnav := adjustCountedBtn (maskTest d1 0x02) m.nav m.anav
  let rias := adjustCountedBtn (maskTest d1 0x04) m.ias m.aias
  let ralt := adjustCountedBtn (maskTest d1 0x08) m.alt m.aalt
  let rvs := adjustCountedBtn (maskTest d1 0x10) m.vs m.avs
  let rapr := adjustCountedBtn (maskTest d1 0x20) m.apr m.aapr
  let rrev := adjustCountedBtn (maskTest d1 0x40) m.rev m.arev
  let rap := adjustCountedBtn (maskTest d0 0x80) m.ap m.aap
  let rflapsU := adjustEncUp (maskTest d2 0x01) m.flaps_up m.flaps SAITEK_MAX_FLAPS
  let rflapsD := adjustEncDown (maskTest d2 0x02) m.flaps_down rflapsU.2 SAITEK_MIN_FLAPS
  let rptU := adjustEncUp (maskTest d2 0x08) m.pitch_trim_up m.pitch_trim SAITEK_MAX_PITCH_TRIM
  let rptD := adjustEncDown (maskTest d2 0x04) m.pitch_trim_down rptU.2 SAITEK_MIN_PITCH_TRIM
  let rknobU := adjustEncUp (maskTest d0 0x20) m.knob_right m.knob SAITEK_MAX_KNOB
  let rknobD := adjustEncDown (maskTest d0 0x40) m.knob_left rknobU.2 SAITEK_MIN_KNOB
  { m with
    hdg := rhdg.1, ahdg := rhdg.2
    nav := rnav.1, anav := rnav.2
    ias := rias.1, aias := rias.2
    alt := ralt.1, aalt := ralt.2
    vs := rvs.1, avs := rvs.2
    apr := rapr.1, aapr := rapr.2
    rev := rrev.1, arev := rrev.2
    ap := rap.1, aap := rap.2
    flaps_up := rflapsU.1, flaps_down := rflapsD.1, flaps := rflapsD.2
    auto_throttle := maskTest d1 0x80
    pitch_trim_up := rptU.1, pitch_trim_down := rptD.1, pitch_trim := rptD.2
    knob_right := rknobU.1, knob_left := rknobD.1, knob := rknobD.2
    mode := multipanelMode d0 }

/-- Function `saitek_proflight_multipanel_raw_event`: report id/type check, size
check, then decode.  Returns the C result code (1 accepted, 0 not ours,
-1 too short) together with the state after the call. -/
def saitek_proflight_multipanel_raw_event (m : Multipanel)
    (reportId reportType : Nat) (data : List Nat) : Int × Multipanel :=
  if reportId ≠ 0 ∨ reportType ≠ 0 then (0, m)
  else if data.length < 3 then (-1, m)
  else (1, multipanelDecode m (data.getD 0 0) (data.getD 1 0) (data.getD 2 0))

/-! ## Radiopanel raw-event decode -/

/-- Stack-0 mode selector of `saitek_proflight_radiopanel_raw_event`:
priority chain over byte 0 bits 0x01..0x40. -/
def radiopanelMode0 (d0 : Nat) : Int :=
  if maskTest d0 0x01 then RADIOPANEL_MODE_COM1
  else if maskTest d0 0x02 then RADIOPANEL_MODE_COM2
  else if maskTest d0 0x04 then RADIOPANEL_MODE_NAV1
  else if maskTest d0 0x08 then RADIOPANEL_MODE_NAV2
  else if maskTest d0 0x10 then RADIOPANEL_MODE_ADF
  else if maskTest d0 0x20 then RADIOPANEL_MODE_DME
  else if maskTest d0 0x40 then RADIOPANEL_MODE_XPDR
  else 0

/-- Stack-1 mode selector: byte 0's top bit, then byte 1 bits 0x01..0x20. -/
def radiopanelMode1 (d0 d1 : Nat) : Int :=
  if maskTest d0 0x80 then RADIOPANEL_MODE_COM1
  else if maskTest d1 0x01 then RADIOPANEL_MODE_COM2
  else if maskTest d1 0x02 then RADIOPANEL_MODE_NAV1
  else if maskTest d1 0x04 then RADIOPANEL_MODE_NAV2
  else if maskTest d1 0x08 then RADIOPANEL_MODE_ADF
  else if maskTest d1 0x10 then RADIOPANEL_MODE_DME
  else if maskTest d1 0x20 then RADIOPANEL_MODE_XPDR
  else 0

/-- Body of `saitek_proflight_radiopanel_raw_event` for an accepted report. -/
def radiopanelDecode (r : Radiopanel) (d0 d1 d2 : Nat) : Radiopanel :=
  let ra0 := adjustCountedBtn (maskTest d1 0x40) r.actstby0 r.aactstby0
  let ra1 := adjustCountedBtn (maskTest d1 0x80) r.actstby1 r.aactstby1
  let rik0U := adjustEncUp (maskTest d2 0x01) r.innerknob0_right r.innerknob0 SAITEK_MAX_KNOB
  let rik0D := adjustEncDown (maskTest d2 0x02) r.innerknob0_left rik0U.2 SAITEK_MIN_KNOB
  let rok0U := adjustEncUp (maskTest d2 0x04) r.outerknob0_right r.outerknob0 SAITEK_MAX_KNOB
  let rok0D := adjustEncDown (maskTest d2 0x08) r.outerknob0_left rok0U.2 SAITEK_MIN_KNOB
  let rik1U := adjustEncUp (maskTest d2 0x10) r.innerknob1_right r.innerknob1 SAITEK_MAX_KNOB
  let rik1D := adjustEncDown (maskTest d2 0x20) r.innerknob1_left rik1U.2 SAITEK_MIN_KNOB
  let rok1U := adjustEncUp (maskTest d2 0x40) r.outerknob1_right r.outerknob1 SAITEK_MAX_KNOB
  let rok1D := adjustEncDown (maskTest d2 0x80) r.outerknob1_left rok1U.2 SAITEK_MIN_KNOB
  { r with
    actstby0 := ra0.1, aactstby0 := ra0.2
    actstby1 := ra1.1, aactstby1 := ra1.2
    innerknob0_right := rik0U.1, innerknob0_left := rik0D.1, innerknob0 := rik0D.2
    outerknob0_right := rok0U.1, outerknob0_left := rok0D.1, outerknob0 := rok0D.2
    innerknob1_right := rik1U.1, innerknob1_left := rik1D.1, innerknob1 := rik1D.2
    outerknob1_right := rok1U.1, outerknob1_left := rok1D.1, outerknob1 := rok1D.2
    mode0 := radiopanelMode0 d0
    mode1 := radiopanelMode1 d0 d1 }

/-- Function `saitek_proflight_radiopanel_raw_event`: same acceptance shape as the
multipanel handler. -/
def saitek_proflight_radiopanel_raw_event (r : Radiopanel)
    (reportId reportType : Nat) (data : List Nat) : Int × Radiopanel :=
  if reportId ≠ 0 ∨ reportType ≠ 0 then (0, r)
  else if data.length < 3 then (-1, r)
  else (1, radiopanelDecode r (data.getD 0 0) (data.getD 1 0) (data.getD 2 0))

/-! ## Display codec -/

/-- Character-to-digit-code mapping of `saitek_parse_multipanel_display`:
space to blank, minus to the minus code, digit to its value, anything
else (including the dot) to blank. -/
def multipanelEncodeChar (ch : Char) : Nat :=
  if ch = ' ' then PANEL_DIGIT_NULL
  else if ch = '-' then PANEL_DIGIT_MINUS
  else if ch.isDigit then ch.toNat - 48
  else PANEL_DIGIT_NULL

/-- Function `saitek_parse_multipanel_display`: overwrites display positions with
encoded characters while both the display slots and the input last; it does
NOT pad when the input runs out, the remaining slots keep their old codes. -/
def saitek_parse_multipanel_display : List Nat → List Char → List Nat
  | d, [] => d
  | [], _ => []
  | _ :: d, ch :: buf => multipanelEncodeChar ch :: saitek_parse_multipanel_display d buf

/-- Digit-code-to-character mapping of `saitek_format_multipanel_display`. -/
def multipanelDecodeDigit (dig : Nat) : Char :=
  if dig = PANEL_DIGIT_NULL then ' '
  else if dig = PANEL_DIGIT_MINUS then '-'
  else if dig < 10 then Char.ofNat (48 + dig)
  else ' '

/-- Function `saitek_format_multipanel_display`: one character per digit, at most
`w` characters, at most 5 digits. -/
def saitek_format_multipanel_display (display : List Nat) (w : Nat) : List Char :=
  ((display.take 5).map multipanelDecodeDigit).take w

/-- One loop iteration of `saitek_parse_radiopanel_display` on character
`ch`, acting on the digits produced so far in reverse order (`acc.length`
is the loop's `digno`).  A dot ORs `PANEL_DIGIT_DOT` onto the previous
digit (or creates a blank-with-dot digit if it comes first). -/
def radiopanelParseStep (acc : List Nat) (ch : Char) : List Nat :=
  if ch = ' ' then PANEL_DIGIT_NULL :: acc
  else if ch.isDigit then (ch.toNat - 48) :: acc
  else if ch = '.' then
    match acc with
    | [] => [PANEL_DIGIT_NULL ||| PANEL_DIGIT_DOT]
    | d :: rest => (d ||| PANEL_DIGIT_DOT) :: rest
  else PANEL_DIGIT_NULL :: acc

/-- The `while (digno < 5)` loop of `saitek_parse_radiopanel_display` for as
long as input characters remain; returns the reversed digits so far and the
unconsumed input. -/
def radiopanelParseConsume : List Nat → List Char → List Nat × List Char
  | acc, [] => (acc, [])
  | acc, ch :: buf =>
    if acc.length < 5 then radiopanelParseConsume (radiopanelParseStep acc ch) buf
    else (acc, ch :: buf)

/-- Step `display[digno - 1] |= PANEL_DIGIT_DOT` on the reversed digit list. -/
def orDotOnLast : List Nat → List Nat
  | [] => []
  | d :: rest => (d ||| PANEL_DIGIT_DOT) :: rest

/-- The trailing-dot fixup of `saitek_parse_radiopanel_display`
(`if (i < bufsize && digno > 0) if (buf[i] == '.') ...`): applied only when
unconsumed input remains and it starts with a dot. -/
def radiopanelTrailingDot (acc : List Nat) : List Char → List Nat
  | [] => acc
  | ch :: _ => if ch = '.' then orDotOnLast acc else acc

/-- Function `saitek_parse_radiopanel_display`: consume input, pad with blanks to 5
digits once the input is exhausted, then apply the trailing-dot fixup to
the last digit.  Unlike the multipanel variant, the old display content
never survives: the result depends on the input text alone. -/
def saitek_parse_radiopanel_display (buf : List Char) : List Nat :=
  (radiopanelTrailingDot
      (List.replicate (5 - (radiopanelParseConsume [] buf).1.length) PANEL_DIGIT_NULL
        ++ (radiopanelParseConsume [] buf).1)
      (radiopanelParseConsume [] buf).2).reverse

/-- Digit-to-character mapping of `saitek_format_radiopanel_display` on the
low nibble: blank, digit, or a defensive question mark. -/
def radiopanelDecodeDigit (dig : Nat) : Char :=
  if dig = PANEL_DIGIT_NULL then ' '
  else if dig < 10 then Char.ofNat (48 + dig)
  else '?'

/-- The loop of `saitek_format_radiopanel_display`: `chno` counts characters
already emitted; a digit is only processed while `chno < w`, and a set
dot flag appends an extra dot character. -/
def radiopanelFormatGo (w chno : Nat) : List Nat → List Char
  | [] => []
  | dig :: rest =>
    if chno < w then
      let base := radiopanelDecodeDigit (dig &&& 0x0f)
      if dig &&& 0xf0 = PANEL_DIGIT_DOT then
        base :: '.' :: radiopanelFormatGo w (chno + 2) rest
      else
        base :: radiopanelFormatGo w (chno + 1) rest
    else []

/-- Function `saitek_format_radiopanel_display` (the returned characters; the C
function also returns their count, recoverable as the list length). -/
def saitek_format_radiopanel_display (display : List Nat) (w : Nat) : List Char :=
  radiopanelFormatGo w 0 (display.take 5)

/-! ## Text serializer: format (read path) -/

/-- Macro `MULTIPANEL_MODE(x)`: the 3/4-character mode-name abbreviation. -/
def MULTIPANEL_MODE_NAME (x : Int) : String :=
  if x = MULTIPANEL_MODE_ALT then "ALT"
  else if x = MULTIPANEL_MODE_VS then "VS "
  else if x = MULTIPANEL_MODE_IAS then "IAS"
  else if x = MULTIPANEL_MODE_HDG then "HDG"
  else if x = MULTIPANEL_MODE_CRS then "CRS"
  else "   "

/-- Macro `RADIOPANEL_MODE(x)`. -/
def RADIOPANEL_MODE_NAME (x : Int) : String :=
  if x = RADIOPANEL_MODE_COM1 then "COM1"
  else if x = RADIOPANEL_MODE_COM2 then "COM2"
  else if x = RADIOPANEL_MODE_NAV1 then "NAV1"
  else if x = RADIOPANEL_MODE_NAV2 then "NAV2"
  else if x = RADIOPANEL_MODE_ADF then "ADF "
  else if x = RADIOPANEL_MODE_DME then "DME "
  else if x = RADIOPANEL_MODE_XPDR then "XPDR"
  else "   "

/-- The values `saitek_buf_format_multipanel` hands to `snprintf` (the
final text assembly by `snprintf` itself is external library code; the
record holds each argument in order of first appearance). -/
structure MultipanelReadView where
  hrdisp0 : List Char
  hrdisp1 : List Char
  leds : List Char
  sessionMode : Char
  btns : List Char
  auto_throttle : Char
  flaps : Int
  pitch_trim : Int
  knob : Int
  ahdg : Int
  anav : Int
  aias : Int
  aalt : Int
  avs : Int
  aapr : Int
  arev : Int
  aap : Int
  modeName : String
  deriving DecidableEq

/-- Function `saitek_buf_format_multipanel`: build the read view from the current
state, then (`switch (parent->mode) case 'R'`) zero every accumulator.
Returns the view and the state after the call. -/
def saitek_buf_format_multipanel (mode : Char) (m : Multipanel) :
    MultipanelReadView × Multipanel :=
  let view : MultipanelReadView :=
    { hrdisp0 := saitek_format_multipanel_display m.display0 5
      hrdisp1 := saitek_format_multipanel_display m.display1 5
      leds := [if m.led_hdg then '1' else '0', if m.led_nav then '1' else '0',
               if m.led_ias then '1' else '0', if m.led_alt then '1' else '0',
               if m.led_vs then '1' else '0', if m.led_apr then '1' else '0',
               if m.led_rev then '1' else '0', if m.led_ap then '1' else '0']
      sessionMode := mode
      btns := [if m.hdg then '1' else '0', if m.nav then '1' else '0',
               if m.ias then '1' else '0', if m.alt then '1' else '0',
               if m.vs then '1' else '0', if m.apr then '1' else '0',
               if m.rev then '1' else '0', if m.ap then '1' else '0']
      auto_throttle := if m.auto_throttle then '1' else '0'
      flaps := m.flaps, pitch_trim := m.pitch_trim, knob := m.knob
      ahdg := m.ahdg, anav := m.anav, aias := m.aias, aalt := m.aalt
      avs := m.avs, aapr := m.aapr, arev := m.arev, aap := m.aap
      modeName := MULTIPANEL_MODE_NAME m.mode }
  let m2 :=
    if mode = 'R' then
      { m with
        flaps := 0, pitch_trim := 0, knob := 0
        ahdg := 0, anav := 0, aias := 0, aalt := 0
        avs := 0, aapr := 0, arev := 0, aap := 0 }
    else m
  (view, m2)

/-- The values `saitek_buf_format_radiopanel` hands to `snprintf`. -/
structure RadiopanelReadView where
  hrdisp0l : List Char
  hrdisp0r : List Char
  hrdisp1l : List Char
  hrdisp1r : List Char
  sessionMode : Char
  actstby0 : Char
  aactstby0 : Int
  innerknob0 : Int
  outerknob0 : Int
  mode0Name : String
  actstby1 : Char
  aactstby1 : Int
  innerknob1 : Int
  outerknob1 : Int
  mode1Name : String
  deriving DecidableEq

/-- Function `saitek_buf_format_radiopanel`: read view, then zero the accumulators
when the session mode flag is `'R'`. -/
def saitek_buf_format_radiopanel (mode : Char) (r : Radiopanel) :
    RadiopanelReadView × Radiopanel :=
  let view : RadiopanelReadView :=
    { hrdisp0l := saitek_format_radiopanel_display r.display0l 10
      hrdisp0r := saitek_format_radiopanel_display r.display0r 10
      hrdisp1l := saitek_format_radiopanel_display r.display1l 10
      hrdisp1r := saitek_format_radiopanel_display r.display1r 10
      sessionMode := mode
      actstby0 := if r.actstby0 then '1' else '0'
      aactstby0 := r.aactstby0
      innerknob0 := r.innerknob0, outerknob0 := r.outerknob0
      mode0Name := RADIOPANEL_MODE_NAME r.mode0
      actstby1 := if r.actstby1 then '1' else '0'
      aactstby1 := r.aactstby1
      innerknob1 := r.innerknob1, outerknob1 := r.outerknob1
      mode1Name := RADIOPANEL_MODE_NAME r.mode1 }
  let r2 :=
    if mode = 'R' then
      { r with
        aactstby0 := 0, aactstby1 := 0
        innerknob0 := 0, outerknob0 := 0, innerknob1 := 0, outerknob1 := 0 }
    else r
  (view, r2)

/-! ## Text serializer: parse (write path) -/

/-- Macro `SET_IF_CHAR_BIN(variable, value)`: set a LED flag from a `'1'`/`'0'`
character, leave it unchanged on anything else. -/
def setIfCharBin (old : Bool) (c : Char) : Bool :=
  if c = '1' then true else if c = '0' then false else old

/-- The trailing mode-flag update (`switch (buf[pos]) case 'N' case 'R'`). -/
def modeFlagUpdate (old c : Char) : Char :=
  if c = 'N' ∨ c = 'R' then c else old

/-- Function `saitek_buf_parse_multipanel` on a text buffer of `buf.length`
characters: shorter than 22 is rejected with nothing changed; otherwise the
two displays (offsets 0 and 6, width 5), the eight LED characters
(offsets 12..19) and the mode flag (offset 21) are applied and any excess
is ignored. -/
def saitek_buf_parse_multipanel (m : Multipanel) (mode : Char)
    (buf : List Char) : Multipanel × Char :=
  if buf.length < 22 then (m, mode)
  else
    ({ m with
        display0 := saitek_parse_multipanel_display m.display0 (buf.take 5)
        display1 := saitek_parse_multipanel_display m.display1 ((buf.drop 6).take 5)
        led_hdg := setIfCharBin m.led_hdg (buf.getD 12 ' ')
        led_nav := setIfCharBin m.led_nav (buf.getD 13 ' ')
        led_ias := setIfCharBin m.led_ias (buf.getD 14 ' ')
        led_alt := setIfCharBin m.led_alt (buf.getD 15 ' ')
        led_vs := setIfCharBin m.led_vs (buf.getD 16 ' ')
        led_apr := setIfCharBin m.led_apr (buf.getD 17 ' ')
        led_rev := setIfCharBin m.led_rev (buf.getD 18 ' ')
        led_ap := setIfCharBin m.led_ap (buf.getD 19 ' ') },
     modeFlagUpdate mode (buf.getD 21 ' '))

/-- Function `saitek_buf_parse_radiopanel`: shorter than 45 is rejected with nothing
changed; otherwise the four displays (offsets 0, 11, 22, 33, width 10) and
the mode flag (offset 44) are applied and any excess is ignored. -/
def saitek_buf_parse_radiopanel (r : Radiopanel) (mode : Char)
    (buf : List Char) : Radiopanel × Char :=
  if buf.length < 45 then (r, mode)
  else
    ({ r with
        display0l := saitek_parse_radiopanel_display (buf.take 10)
        display0r := saitek_parse_radiopanel_display ((buf.drop 11).take 10)
        display1l := saitek_parse_radiopanel_display ((buf.drop 22).take 10)
        display1r := saitek_parse_radiopanel_display ((buf.drop 33).take 10) },
     modeFlagUpdate mode (buf.getD 44 ' '))

/-! ## Feature report builder -/

/-- The LED bitmask byte `saitek_set_multipanel` computes for `dmabuf[11]`. -/
def multipanelLedMask (m : Multipanel) : Nat :=
  (if m.led_hdg then MULTIPANEL_LIGHT_HDG else 0)
  + (if m.led_nav then MULTIPANEL_LIGHT_NAV else 0)
  + (if m.led_ias then MULTIPANEL_LIGHT_IAS else 0)
  + (if m.led_alt then MULTIPANEL_LIGHT_ALT else 0)
  + (if m.led_vs then MULTIPANEL_LIGHT_VS else 0)
  + (if m.led_apr then MULTIPANEL_LIGHT_APR else 0)
  + (if m.led_rev then MULTIPANEL_LIGHT_REV else 0)
  + (if m.led_ap then MULTIPANEL_LIGHT_AP else 0)

/-- The bytes `saitek_set_multipanel` stores into `dmabuf`, in index order
0..12: report id 0, two 5-byte displays, LED bitmask, trailing 0. -/
def saitek_set_multipanel_bytes (m : Multipanel) : List Nat :=
  0 :: (m.display0 ++ m.display1 ++ [multipanelLedMask m, 0])

/-- The bytes `saitek_set_radiopanel` stores into `dmabuf`, in index order
0..22: report id 0, four 5-byte displays, two trailing zeros. -/
def saitek_set_radiopanel_bytes (r : Radiopanel) : List Nat :=
  0 :: (r.display0l ++ r.display0r ++ r.display1l ++ r.display1r ++ [0, 0])

/-- Byte count the builders pass to `hid_hw_raw_request`. -/
def multipanelRequestLen : Nat := 13

/-- Byte count the radiopanel builder passes to `hid_hw_raw_request`. -/
def radiopanelRequestLen : Nat := 23

/-- Allocation size of `proflight.dmabuf` in
`saitek_proflight_alloc_panel_data`: `SAITEK_HID_BUF_LEN` bytes for BOTH
panel kinds. -/
def dmabufAllocLen : Nat := SAITEK_HID_BUF_LEN

/-! ## Panel session and probe -/

/-- The tagged panel choice held by `union proflight_panel_data` (the union
is only ever used at the tag picked by `product_id`, so it is a sum). -/
inductive PanelData
  | multipanel : Multipanel → PanelData
  | radiopanel : Radiopanel → PanelData
  deriving DecidableEq

/-- The part of `struct proflight` the codec claims touch: the session
mode flag and the panel state. -/
structure Proflight where
  mode : Char
  data : PanelData
  deriving DecidableEq

/-- Functions `saitek_proflight_probe` and `saitek_proflight_alloc_panel_data`: the
panel struct comes zeroed from `devm_kzalloc` and the probe then sets the
session mode flag to `'R'`. -/
def saitek_proflight_probe (productIsRadiopanel : Bool) : Proflight :=
  { mode := 'R'
    data := if productIsRadiopanel then .radiopanel initialRadiopanel
            else .multipanel initialMultipanel }

/-! ## Report sequences -/

/-- One raw HID input report as delivered to `saitek_proflight_raw_event`. -/
structure RawReport where
  id : Nat
  rtype : Nat
  data : List Nat
  deriving DecidableEq

/-- Deliver a sequence of raw reports to a multipanel session. -/
def multipanelRun (m : Multipanel) : List RawReport → Multipanel
  | [] => m
  | rep :: rest =>
    multipanelRun (saitek_proflight_multipanel_raw_event m rep.id rep.rtype rep.data).2 rest

/-- Deliver a sequence of raw reports to a radiopanel session. -/
def radiopanelRun (r : Radiopanel) : List RawReport → Radiopanel
  | [] => r
  | rep :: rest =>
    radiopanelRun (saitek_proflight_radiopanel_raw_event r rep.id rep.rtype rep.data).2 rest

/-! ## Bounds of the edge-triggered accumulators -/

theorem adjustCountedBtn_snd_bounds (b f : Bool) (a : Int)
    (h0 : 0 ≤ a) (h9 : a ≤ 9) :
    0 ≤ (adjustCountedBtn b f a).2 ∧ (adjustCountedBtn b f a).2 ≤ 9 := by
  unfold adjustCountedBtn SAITEK_MAX_BTN
  split_ifs <;> simp_all <;> omega

theorem adjustEncUp_snd_bounds (b f : Bool) (v vmin vmax : Int)
    (h1 : vmin ≤ v) (h2 : v ≤ vmax) :
    vmin ≤ (adjustEncUp b f v vmax).2 ∧ (adjustEncUp b f v vmax).2 ≤ vmax := by
  unfold adjustEncUp
  split_ifs <;> simp_all <;> omega

theorem adjustEncDown_snd_bounds (b f : Bool) (v vmin vmax : Int)
    (h1 : vmin ≤ v) (h2 : v ≤ vmax) :
    vmin ≤ (adjustEncDown b f v vmin).2 ∧ (adjustEncDown b f v vmin).2 ≤ vmax := by
  unfold adjustEncDown
  split_ifs <;> simp_all <;> omega

/-- The bounds the spec asserts for the multipanel accumulators. -/
def multipanelInv (m : Multipanel) : Prop :=
  (-99 ≤ m.flaps ∧ m.flaps ≤ 99) ∧
  (-99 ≤ m.pitch_trim ∧ m.pitch_trim ≤ 99) ∧
  (-99 ≤ m.knob ∧ m.knob ≤ 99) ∧
  (0 ≤ m.ahdg ∧ m.ahdg ≤ 9) ∧ (0 ≤ m.anav ∧ m.anav ≤ 9) ∧
  (0 ≤ m.aias ∧ m.aias ≤ 9) ∧ (0 ≤ m.aalt ∧ m.aalt ≤ 9) ∧
  (0 ≤ m.avs ∧ m.avs ≤ 9) ∧ (0 ≤ m.aapr ∧ m.aapr ≤ 9) ∧
  (0 ≤ m.arev ∧ m.arev ≤ 9) ∧ (0 ≤ m.aap ∧ m.aap ≤ 9)

/-- The bounds the spec asserts for the radiopanel accumulators. -/
def radiopanelInv (r : Radiopanel) : Prop :=
  (-99 ≤ r.innerknob0 ∧ r.innerknob0 ≤ 99) ∧
  (-99 ≤ r.outerknob0 ∧ r.outerknob0 ≤ 99) ∧
  (-99 ≤ r.innerknob1 ∧ r.innerknob1 ≤ 99) ∧
  (-99 ≤ r.outerknob1 ∧ r.outerknob1 ≤ 99) ∧
  (0 ≤ r.aactstby0 ∧ r.aactstby0 ≤ 9) ∧ (0 ≤ r.aactstby1 ∧ r.aactstby1 ≤ 9)

theorem multipanelDecode_inv (m : Multipanel) (d0 d1 d2 : Nat)
    (h : multipanelInv m) : multipanelInv (multipanelDecode m d0 d1 d2) := by
  obtain ⟨hf, hpt, hk, h1, h2, h3, h4, h5, h6, h7, h8⟩ := h
  unfold multipanelInv multipanelDecode
  refine ⟨?_, ?_, ?_, ?_, ?_, ?_, ?_, ?_, ?_, ?_, ?_⟩
  · exact adjustEncDown_snd_bounds _ _ _ _ 99
      (adjustEncUp_snd_bounds _ _ _ _ _ hf.1 hf.2).1
      (adjustEncUp_snd_bounds _ _ _ (-99) _ hf.1 hf.2).2
  · exact adjustEncDown_snd_bounds _ _ _ _ 99
      (adjustEncUp_snd_bounds _ _ _ _ _ hpt.1 hpt.2).1
      (adjustEncUp_snd_bounds _ _ _ (-99) _ hpt.1 hpt.2).2
  · exact adjustEncDown_snd_bounds _ _ _ _ 99
      (adjustEncUp_snd_bounds _ _ _ _ _ hk.1 hk.2).1
      (adjustEncUp_snd_bounds _ _ _ (-99) _ hk.1 hk.2).2
  · exact adjustCountedBtn_snd_bounds _ _ _ h1.1 h1.2
  · exact adjustCountedBtn_snd_bounds _ _ _ h2.1 h2.2
  · exact adjustCountedBtn_snd_bounds _ _ _ h3.1 h3.2
  · exact adjustCountedBtn_snd_bounds _ _ _ h4.1 h4.2
  · exact adjustCountedBtn_snd_bounds _ _ _ h5.1 h5.2
  · exact adjustCountedBtn_snd_bounds _ _ _ h6.1 h6.2
  · exact adjustCountedBtn_snd_bounds _ _ _ h7.1 h7.2
  · exact adjustCountedBtn_snd_bounds _ _ _ h8.1 h8.2

theorem radiopanelDecode_inv (r : Radiopanel) (d0 d1 d2 : Nat)
    (h : radiopanelInv r) : radiopanelInv (radiopanelDecode r d0 d1 d2) := by
  obtain ⟨hik0, hok0, hik1, hok1, ha0, ha1⟩ := h
  unfold radiopanelInv radiopanelDecode
  refine ⟨?_, ?_, ?_, ?_, ?_, ?_⟩
  · exact adjustEncDown_snd_bounds _ _ _ _ 99
      (adjustEncUp_snd_bounds _ _ _ _ _ hik0.1 hik0.2).1
      (adjustEncUp_snd_bounds _ _ _ (-99) _ hik0.1 hik0.2).2
  · exact adjustEncDown_snd_bounds _ _ _ _ 99
      (adjustEncUp_snd_bounds _ _ _ _ _ hok0.1 hok0.2).1
      (adjustEncUp_snd_bounds _ _ _ (-99) _ hok0.1 hok0.2).2
  · exact adjustEncDown_snd_bounds _ _ _ _ 99
      (adjustEncUp_snd_bounds _ _ _ _ _ hik1.1 hik1.2).1
      (adjustEncUp_snd_bounds _ _ _ (-99) _ hik1.1 hik1.2).2
  · exact adjustEncDown_snd_bounds _ _ _ _ 99
      (adjustEncUp_snd_bounds _ _ _ _ _ hok1.1 hok1.2).1
      (adjustEncUp_snd_bounds _ _ _ (-99) _ hok1.1 hok1.2).2
  · exact adjustCountedBtn_snd_bounds _ _ _ ha0.1 ha0.2
  · exact adjustCountedBtn_snd_bounds _ _ _ ha1.1 ha1.2

theorem multipanel_raw_event_inv (m : Multipanel) (i t : Nat) (d : List Nat)
    (h : multipanelInv m) :
    multipanelInv (saitek_proflight_multipanel_raw_event m i t d).2 := by
  unfold saitek_proflight_multipanel_raw_event
  split_ifs with h1 h2
  · exact h
  · exact h
  · exact multipanelDecode_inv m _ _ _ h

theorem radiopanel_raw_event_inv (r : Radiopanel) (i t : Nat) (d : List Nat)
    (h : radiopanelInv r) :
    radiopanelInv (saitek_proflight_radiopanel_raw_event r i t d).2 := by
  unfold saitek_proflight_radiopanel_raw_event
  split_ifs with h1 h2
  · exact h
  · exact h
  · exact radiopanelDecode_inv r _ _ _ h

theorem multipanelRun_inv (reports : List RawReport) :
    ∀ m : Multipanel, multipanelInv m → multipanelInv (multipanelRun m reports) := by
  induction reports with
  | nil => intro m h; exact h
  | cons rep rest ih =>
    intro m h
    exact ih _ (multipanel_raw_event_inv m rep.id rep.rtype rep.data h)

theorem radiopanelRun_inv (reports : List RawReport) :
    ∀ r : Radiopanel, radiopanelInv r → radiopanelInv (radiopanelRun r reports) := by
  induction reports with
  | nil => intro r h; exact h
  | cons rep rest ih =>
    intro r h
    exact ih _ (radiopanel_raw_event_inv r rep.id rep.rtype rep.data h)

/-- C1: starting from the zeroed initial state, under every sequence of
delivered reports (accepted or not) the multipanel encoder accumulators
`flaps`, `pitch_trim`, `knob` and the radiopanel encoder accumulators
`innerknob0/outerknob0/innerknob1/outerknob1` stay in [-99, 99], and the
counted press accumulators `ahdg..aap`, `aactstby0`, `aactstby1` stay in
[0, 9]. -/
theorem claim_C1_accumulator_bounds (reports : List RawReport) :
    multipanelInv (multipanelRun initialMultipanel reports) ∧
    radiopanelInv (radiopanelRun initialRadiopanel reports) :=
  ⟨multipanelRun_inv reports initialMultipanel
     (by unfold multipanelInv initialMultipanel; norm_num),
   radiopanelRun_inv reports initialRadiopanel
     (by unfold radiopanelInv initialRadiopanel; norm_num)⟩

/-! ## Re-decoding an identical report -/

theorem adjustCountedBtn_fst (b f : Bool) (a : Int) :
    (adjustCountedBtn b f a).1 = b := by
  unfold adjustCountedBtn; split_ifs <;> simp_all

theorem adjustCountedBtn_same (b : Bool) (a : Int) :
    adjustCountedBtn b b a = (b, a) := by
  unfold adjustCountedBtn; cases b <;> simp

theorem adjustEncUp_fst (b f : Bool) (v vmax : Int) :
    (adjustEncUp b f v vmax).1 = b := by
  unfold adjustEncUp; cases b <;> simp

theorem adjustEncUp_same (b : Bool) (v vmax : Int) :
    adjustEncUp b b v vmax = (b, v) := by
  unfold adjustEncUp; cases b <;> simp

theorem adjustEncDown_fst (b f : Bool) (v vmin : Int) :
    (adjustEncDown b f v vmin).1 = b := by
  unfold adjustEncDown; cases b <;> simp

theorem adjustEncDown_same (b : Bool) (v vmin : Int) :
    adjustEncDown b b v vmin = (b, v) := by
  unfold adjustEncDown; cases b <;> simp

theorem multipanelDecode_idem (m : Multipanel) (d0 d1 d2 : Nat) :
    multipanelDecode (multipanelDecode m d0 d1 d2) d0 d1 d2 =
      multipanelDecode m d0 d1 d2 := by
  simp [multipanelDecode, adjustCountedBtn_fst, adjustCountedBtn_same,
    adjustEncUp_fst, adjustEncUp_same, adjustEncDown_fst, adjustEncDown_same]

/-- C2: delivering the same multipanel report twice in a row has the same
effect as delivering it once — the boolean flags stay as after the first
decode and no accumulator moves again (only the rising edge counts); this
holds for every report, accepted, pass-through or too short. -/
theorem claim_C2_redecode_idempotent (m : Multipanel) (i t : Nat) (d : List Nat) :
    saitek_proflight_multipanel_raw_event
        (saitek_proflight_multipanel_raw_event m i t d).2 i t d =
      saitek_proflight_multipanel_raw_event m i t d := by
  unfold saitek_proflight_multipanel_raw_event
  split_ifs with h1 h2
  · rfl
  · rfl
  · simp [multipanelDecode_idem]

/-! ## Mode-selector priority -/

theorem multipanel_raw_event_accepted (m : Multipanel) (d : List Nat)
    (h : 3 ≤ d.length) :
    saitek_proflight_multipanel_raw_event m 0 0 d =
      (1, multipanelDecode m (d.getD 0 0) (d.getD 1 0) (d.getD 2 0)) := by
  unfold saitek_proflight_multipanel_raw_event
  rw [if_neg (by simp), if_neg (by omega)]

theorem radiopanel_raw_event_accepted (r : Radiopanel) (d : List Nat)
    (h : 3 ≤ d.length) :
    saitek_proflight_radiopanel_raw_event r 0 0 d =
      (1, radiopanelDecode r (d.getD 0 0) (d.getD 1 0) (d.getD 2 0)) := by
  unfold saitek_proflight_radiopanel_raw_event
  rw [if_neg (by simp), if_neg (by omega)]

/-- C8: on every accepted multipanel report the mode selector follows the
priority order ALT (0x01), VS (0x02), IAS (0x04), HDG (0x08), CRS (0x10)
over byte 0, first set bit winning — in particular the ALT bit wins over
the VS bit whenever both are set — and no bit set yields mode 0. -/
theorem claim_C8_mode_priority (m : Multipanel) (d : List Nat)
    (h : 3 ≤ d.length) :
    (maskTest (d.getD 0 0) 0x01 = true →
      (saitek_proflight_multipanel_raw_event m 0 0 d).2.mode = MULTIPANEL_MODE_ALT) ∧
    (maskTest (d.getD 0 0) 0x01 = false → maskTest (d.getD 0 0) 0x02 = true →
      (saitek_proflight_multipanel_raw_event m 0 0 d).2.mode = MULTIPANEL_MODE_VS) ∧
    (maskTest (d.getD 0 0) 0x01 = false → maskTest (d.getD 0 0) 0x02 = false →
     maskTest (d.getD 0 0) 0x04 = true →
      (saitek_proflight_multipanel_raw_event m 0 0 d).2.mode = MULTIPANEL_MODE_IAS) ∧
    (maskTest (d.getD 0 0) 0x01 = false → maskTest (d.getD 0 0) 0x02 = false →
     maskTest (d.getD 0 0) 0x04 = false → maskTest (d.getD 0 0) 0x08 = true →
      (saitek_proflight_multipanel_raw_event m 0 0 d).2.mode = MULTIPANEL_MODE_HDG) ∧
    (maskTest (d.getD 0 0) 0x01 = false → maskTest (d.getD 0 0) 0x02 = false →
     maskTest (d.getD 0 0) 0x04 = false → maskTest (d.getD 0 0) 0x08 = false →
     maskTest (d.getD 0 0) 0x10 = true →
      (saitek_proflight_multipanel_raw_event m 0 0 d).2.mode = MULTIPANEL_MODE_CRS) ∧
    (maskTest (d.getD 0 0) 0x01 = false → maskTest (d.getD 0 0) 0x02 = false →
     maskTest (d.getD 0 0) 0x04 = false → maskTest (d.getD 0 0) 0x08 = false →
     maskTest (d.getD 0 0) 0x10 = false →
      (saitek_proflight_multipanel_raw_event m 0 0 d).2.mode = 0) := by
  rw [multipanel_raw_event_accepted m d h]
  refine ⟨?_, ?_, ?_, ?_, ?_, ?_⟩ <;> intros <;>
    simp_all [multipanelDecode, multipanelMode]

/-- Witness for C8: the report [0x03, 0, 0] has both the ALT and the VS bit
set and resolves to ALT, which differs from VS. -/
theorem claim_C8_witness :
    (saitek_proflight_multipanel_raw_event initialMultipanel 0 0 [0x03, 0, 0]).2.mode
        = MULTIPANEL_MODE_ALT ∧
    MULTIPANEL_MODE_ALT ≠ MULTIPANEL_MODE_VS :=
  ⟨(claim_C8_mode_priority initialMultipanel [0x03, 0, 0] (by decide)).1 (by decide),
   by decide⟩

/-! ## Radiopanel mode selectors (C4) -/

/-- A radiopanel state whose stack-0 mode selector was previously COM2. -/
def radiopanelPriorCom2 : Radiopanel :=
  { initialRadiopanel with mode0 := RADIOPANEL_MODE_COM2 }

/-- C4 as stated is false at the report [0x80, 0, 0]: stack-1's mode does
resolve to COM1, but stack-0's mode is NOT left at its prior value — the
decode recomputes it from byte 0's low bits and, none being set, stores 0
in place of the prior COM2. -/
theorem claim_C4_counterexample :
    (saitek_proflight_radiopanel_raw_event radiopanelPriorCom2 0 0 [0x80, 0, 0]).2.mode1
        = RADIOPANEL_MODE_COM1 ∧
    radiopanelPriorCom2.mode0 = RADIOPANEL_MODE_COM2 ∧
    (saitek_proflight_radiopanel_raw_event radiopanelPriorCom2 0 0 [0x80, 0, 0]).2.mode0
        ≠ radiopanelPriorCom2.mode0 := by decide

/-- C4 amended: on every accepted radiopanel report, byte 0 bit 0x01 makes
stack-0's mode resolve to COM1 and byte 0 bit 0x80 makes stack-1's mode
resolve to COM1; stack-0's mode is recomputed from byte 0's bits
0x01..0x40 on every accepted report (the 0x80 bit does not enter that
selector), so when none of those bits is set it becomes 0 rather than
keeping its prior value. -/
theorem claim_C4_amended (r : Radiopanel) (d : List Nat) (h : 3 ≤ d.length) :
    (maskTest (d.getD 0 0) 0x01 = true →
      (saitek_proflight_radiopanel_raw_event r 0 0 d).2.mode0 = RADIOPANEL_MODE_COM1) ∧
    (maskTest (d.getD 0 0) 0x80 = true →
      (saitek_proflight_radiopanel_raw_event r 0 0 d).2.mode1 = RADIOPANEL_MODE_COM1) ∧
    (maskTest (d.getD 0 0) 0x01 = false → maskTest (d.getD 0 0) 0x02 = false →
     maskTest (d.getD 0 0) 0x04 = false → maskTest (d.getD 0 0) 0x08 = false →
     maskTest (d.getD 0 0) 0x10 = false → maskTest (d.getD 0 0) 0x20 = false →
     maskTest (d.getD 0 0) 0x40 = false →
      (saitek_proflight_radiopanel_raw_event r 0 0 d).2.mode0 = 0) := by
  rw [radiopanel_raw_event_accepted r d h]
  refine ⟨?_, ?_, ?_⟩ <;> intros <;>
    simp_all [radiopanelDecode, radiopanelMode0, radiopanelMode1]

/-- Witness for C4 (amended): at the report [0x80, 0, 0] stack-1 resolves
to COM1 and stack-0 to 0. -/
theorem claim_C4_amended_witness :
    (saitek_proflight_radiopanel_raw_event initialRadiopanel 0 0 [0x80, 0, 0]).2.mode1
        = RADIOPANEL_MODE_COM1 ∧
    (saitek_proflight_radiopanel_raw_event initialRadiopanel 0 0 [0x80, 0, 0]).2.mode0
        = 0 :=
  ⟨(claim_C4_amended initialRadiopanel [0x80, 0, 0] (by decide)).2.1 (by decide),
   (claim_C4_amended initialRadiopanel [0x80, 0, 0] (by decide)).2.2
     (by decide) (by decide) (by decide) (by decide) (by decide) (by decide) (by decide)⟩

/-! ## Probe / initial session state (C10) -/

/-- C10: a freshly probed session has the reset-after-read flag `'R'` and a
panel state with every button flag, press counter, encoder accumulator,
mode selector, display byte and light bit zeroed (`devm_kzalloc`). -/
theorem claim_C10_probe_initial_state :
    (saitek_proflight_probe false).mode = 'R' ∧
    (saitek_proflight_probe true).mode = 'R' ∧
    (saitek_proflight_probe false).data = PanelData.multipanel initialMultipanel ∧
    (saitek_proflight_probe true).data = PanelData.radiopanel initialRadiopanel ∧
    (initialMultipanel.hdg = false ∧ initialMultipanel.nav = false ∧
     initialMultipanel.ias = false ∧ initialMultipanel.alt = false ∧
     initialMultipanel.vs = false ∧ initialMultipanel.apr = false ∧
     initialMultipanel.rev = false ∧ initialMultipanel.ap = false ∧
     initialMultipanel.flaps_up = false ∧ initialMultipanel.flaps_down = false ∧
     initialMultipanel.auto_throttle = false ∧
     initialMultipanel.pitch_trim_up = false ∧
     initialMultipanel.pitch_trim_down = false ∧
     initialMultipanel.knob_right = false ∧ initialMultipanel.knob_left = false) ∧
    (initialMultipanel.mode = 0 ∧
     initialMultipanel.ahdg = 0 ∧ initialMultipanel.anav = 0 ∧
     initialMultipanel.aias = 0 ∧ initialMultipanel.aalt = 0 ∧
     initialMultipanel.avs = 0 ∧ initialMultipanel.aapr = 0 ∧
     initialMultipanel.arev = 0 ∧ initialMultipanel.aap = 0 ∧
     initialMultipanel.flaps = 0 ∧ initialMultipanel.pitch_trim = 0 ∧
     initialMultipanel.knob = 0) ∧
    (initialMultipanel.display0 = [0, 0, 0, 0, 0] ∧
     initialMultipanel.display1 = [0, 0, 0, 0, 0]) ∧
    (initialMultipanel.led_hdg = false ∧ initialMultipanel.led_nav = false ∧
     initialMultipanel.led_ias = false ∧ initialMultipanel.led_alt = false ∧
     initialMultipanel.led_vs = false ∧ initialMultipanel.led_apr = false ∧
     initialMultipanel.led_rev = false ∧ initialMultipanel.led_ap = false) ∧
    (initialRadiopanel.actstby0 = false ∧ initialRadiopanel.actstby1 = false ∧
     initialRadiopanel.innerknob0_right = false ∧
     initialRadiopanel.innerknob0_left = false ∧
     initialRadiopanel.outerknob0_right = false ∧
     initialRadiopanel.outerknob0_left = false ∧
     initialRadiopanel.innerknob1_right = false ∧
     initialRadiopanel.innerknob1_left = false ∧
     initialRadiopanel.outerknob1_right = false ∧
     initialRadiopanel.outerknob1_left = false) ∧
    (initialRadiopanel.mode0 = 0 ∧ initialRadiopanel.mode1 = 0 ∧
     initialRadiopanel.aactstby0 = 0 ∧ initialRadiopanel.aactstby1 = 0 ∧
     initialRadiopanel.innerknob0 = 0 ∧ initialRadiopanel.outerknob0 = 0 ∧
     initialRadiopanel.innerknob1 = 0 ∧ initialRadiopanel.outerknob1 = 0) ∧
    (initialRadiopanel.display0l = [0, 0, 0, 0, 0] ∧
     initialRadiopanel.display0r = [0, 0, 0, 0, 0] ∧
     initialRadiopanel.display1l = [0, 0, 0, 0, 0] ∧
     initialRadiopanel.display1r = [0, 0, 0, 0, 0]) := by
  refine ⟨by decide, by decide, by decide, by decide, by decide, by decide,
    by decide, by decide, by decide, by decide, by decide⟩

/-! ## Feature-report buffer lengths (C3) -/

/-- C3 exposes a bug in the code: the builders do emit the per-kind fixed
layouts (13 bytes for the multipanel, 23 bytes for the radiopanel), but
`saitek_proflight_alloc_panel_data` allocates `SAITEK_HID_BUF_LEN` = 13
bytes of `dmabuf` for BOTH panel kinds, so `saitek_set_radiopanel` writes
its bytes at indices 13..22 past the end of the allocation (and asks the
transport to read 23 bytes from it). -/
theorem claim_C3_radiopanel_buffer_overflow :
    (saitek_set_multipanel_bytes initialMultipanel).length = multipanelRequestLen ∧
    multipanelRequestLen = 13 ∧
    multipanelRequestLen ≤ dmabufAllocLen ∧
    (saitek_set_radiopanel_bytes initialRadiopanel).length = radiopanelRequestLen ∧
    radiopanelRequestLen = 23 ∧
    dmabufAllocLen = 13 ∧
    ¬radiopanelRequestLen ≤ dmabufAllocLen := by
  decide

/-! ## Reset-after-read (C6) -/

/-- C6: a read in mode 'R' renders the current accumulator values into the
view and only afterwards zeroes every press counter and encoder
accumulator, so a second consecutive read renders all zeros; a read in
mode 'N' leaves the whole panel state untouched. -/
theorem claim_C6_reset_after_read (m : Multipanel) (r : Radiopanel) :
    ((saitek_buf_format_multipanel 'R' m).1.flaps = m.flaps ∧
     (saitek_buf_format_multipanel 'R' m).1.pitch_trim = m.pitch_trim ∧
     (saitek_buf_format_multipanel 'R' m).1.knob = m.knob ∧
     (saitek_buf_format_multipanel 'R' m).1.ahdg = m.ahdg ∧
     (saitek_buf_format_multipanel 'R' m).1.anav = m.anav ∧
     (saitek_buf_format_multipanel 'R' m).1.aias = m.aias ∧
     (saitek_buf_format_multipanel 'R' m).1.aalt = m.aalt ∧
     (saitek_buf_format_multipanel 'R' m).1.avs = m.avs ∧
     (saitek_buf_format_multipanel 'R' m).1.aapr = m.aapr ∧
     (saitek_buf_format_multipanel 'R' m).1.arev = m.arev ∧
     (saitek_buf_format_multipanel 'R' m).1.aap = m.aap) ∧
    ((saitek_buf_format_multipanel 'R' m).2.flaps = 0 ∧
     (saitek_buf_format_multipanel 'R' m).2.pitch_trim = 0 ∧
     (saitek_buf_format_multipanel 'R' m).2.knob = 0 ∧
     (saitek_buf_format_multipanel 'R' m).2.ahdg = 0 ∧
     (saitek_buf_format_multipanel 'R' m).2.anav = 0 ∧
     (saitek_buf_format_multipanel 'R' m).2.aias = 0 ∧
     (saitek_buf_format_multipanel 'R' m).2.aalt = 0 ∧
     (saitek_buf_format_multipanel 'R' m).2.avs = 0 ∧
     (saitek_buf_format_multipanel 'R' m).2.aapr = 0 ∧
     (saitek_buf_format_multipanel 'R' m).2.arev = 0 ∧
     (saitek_buf_format_multipanel 'R' m).2.aap = 0) ∧
    ((saitek_buf_format_multipanel 'R'
        (saitek_buf_format_multipanel 'R' m).2).1.flaps = 0 ∧
     (saitek_buf_format_multipanel 'R'
        (saitek_buf_format_multipanel 'R' m).2).1.pitch_trim = 0 ∧
     (saitek_buf_format_multipanel 'R'
        (saitek_buf_format_multipanel 'R' m).2).1.knob = 0 ∧
     (saitek_buf_format_multipanel 'R'
        (saitek_buf_format_multipanel 'R' m).2).1.ahdg = 0 ∧
     (saitek_buf_format_multipanel 'R'
        (saitek_buf_format_multipanel 'R' m).2).1.anav = 0 ∧
     (saitek_buf_format_multipanel 'R'
        (saitek_buf_format_multipanel 'R' m).2).1.aias = 0 ∧
     (saitek_buf_format_multipanel 'R'
        (saitek_buf_format_multipanel 'R' m).2).1.aalt = 0 ∧
     (saitek_buf_format_multipanel 'R'
        (saitek_buf_format_multipanel 'R' m).2).1.avs = 0 ∧
     (saitek_buf_format_multipanel 'R'
        (saitek_buf_format_multipanel 'R' m).2).1.aapr = 0 ∧
     (saitek_buf_format_multipanel 'R'
        (saitek_buf_format_multipanel 'R' m).2).1.arev = 0 ∧
     (saitek_buf_format_multipanel 'R'
        (saitek_buf_format_multipanel 'R' m).2).1.aap = 0) ∧
    (saitek_buf_format_multipanel 'N' m).2 = m ∧
    ((saitek_buf_format_radiopanel 'R' r).1.aactstby0 = r.aactstby0 ∧
     (saitek_buf_format_radiopanel 'R' r).1.aactstby1 = r.aactstby1 ∧
     (saitek_buf_format_radiopanel 'R' r).1.innerknob0 = r.innerknob0 ∧
     (saitek_buf_format_radiopanel 'R' r).1.outerknob0 = r.outerknob0 ∧
     (saitek_buf_format_radiopanel 'R' r).1.innerknob1 = r.innerknob1 ∧
     (saitek_buf_format_radiopanel 'R' r).1.outerknob1 = r.outerknob1) ∧
    ((saitek_buf_format_radiopanel 'R' r).2.aactstby0 = 0 ∧
     (saitek_buf_format_radiopanel 'R' r).2.aactstby1 = 0 ∧
     (saitek_buf_format_radiopanel 'R' r).2.innerknob0 = 0 ∧
     (saitek_buf_format_radiopanel 'R' r).2.outerknob0 = 0 ∧
     (saitek_buf_format_radiopanel 'R' r).2.innerknob1 = 0 ∧
     (saitek_buf_format_radiopanel 'R' r).2.outerknob1 = 0) ∧
    ((saitek_buf_format_radiopanel 'R'
        (saitek_buf_format_radiopanel 'R' r).2).1.aactstby0 = 0 ∧
     (saitek_buf_format_radiopanel 'R'
        (saitek_buf_format_radiopanel 'R' r).2).1.aactstby1 = 0 ∧
     (saitek_buf_format_radiopanel 'R'
        (saitek_buf_format_radiopanel 'R' r).2).1.innerknob0 = 0 ∧
     (saitek_buf_format_radiopanel 'R'
        (saitek_buf_format_radiopanel 'R' r).2).1.outerknob0 = 0 ∧
     (saitek_buf_format_radiopanel 'R'
        (saitek_buf_format_radiopanel 'R' r).2).1.innerknob1 = 0 ∧
     (saitek_buf_format_radiopanel 'R'
        (saitek_buf_format_radiopanel 'R' r).2).1.outerknob1 = 0) ∧
    (saitek_buf_format_radiopanel 'N' r).2 = r := by
  simp [saitek_buf_format_multipanel, saitek_buf_format_radiopanel]

/-! ## Short and long inputs (C9) -/

theorem getD_take_of_lt (buf : List Char) (n i : Nat) (c : Char) (h : i < n) :
    (buf.take n).getD i c = buf.getD i c := by
  simp [List.getD_eq_getElem?_getD, List.getElem?_take, h]

theorem slice_take_of_le (buf : List Char) (n k w : Nat) (h : k + w ≤ n) :
    ((buf.take n).drop k).take w = (buf.drop k).take w := by
  rw [List.drop_take, List.take_take]
  congr 1
  omega

/-- C9: a raw report shorter than 3 bytes makes either panel's decode fail
with -1 and leaves the state untouched; a write buffer shorter than the
panel's required length (22 multipanel, 45 radiopanel) is rejected leaving
panel state and mode flag untouched; a longer buffer acts exactly like its
required-length prefix (the excess is ignored). -/
theorem claim_C9_short_input_rejected :
    (∀ (m : Multipanel) (d : List Nat), d.length < 3 →
      saitek_proflight_multipanel_raw_event m 0 0 d = (-1, m)) ∧
    (∀ (r : Radiopanel) (d : List Nat), d.length < 3 →
      saitek_proflight_radiopanel_raw_event r 0 0 d = (-1, r)) ∧
    (∀ (m : Multipanel) (mode : Char) (buf : List Char), buf.length < 22 →
      saitek_buf_parse_multipanel m mode buf = (m, mode)) ∧
    (∀ (r : Radiopanel) (mode : Char) (buf : List Char), buf.length < 45 →
      saitek_buf_parse_radiopanel r mode buf = (r, mode)) ∧
    (∀ (m : Multipanel) (mode : Char) (buf : List Char), 22 ≤ buf.length →
      saitek_buf_parse_multipanel m mode buf =
        saitek_buf_parse_multipanel m mode (buf.take 22)) ∧
    (∀ (r : Radiopanel) (mode : Char) (buf : List Char), 45 ≤ buf.length →
      saitek_buf_parse_radiopanel r mode buf =
        saitek_buf_parse_radiopanel r mode (buf.take 45)) := by
  refine ⟨?_, ?_, ?_, ?_, ?_, ?_⟩
  · intro m d h
    unfold saitek_proflight_multipanel_raw_event
    rw [if_neg (by simp), if_pos h]
  · intro r d h
    unfold saitek_proflight_radiopanel_raw_event
    rw [if_neg (by simp), if_pos h]
  · intro m mode buf h
    unfold saitek_buf_parse_multipanel
    rw [if_pos h]
  · intro r mode buf h
    unfold saitek_buf_parse_radiopanel
    rw [if_pos h]
  · intro m mode buf h
    unfold saitek_buf_parse_multipanel
    rw [if_neg (by omega), if_neg (by simp [List.length_take]; omega)]
    rw [List.take_take, slice_take_of_le buf 22 6 5 (by omega),
      getD_take_of_lt buf 22 12 ' ' (by omega),
      getD_take_of_lt buf 22 13 ' ' (by omega),
      getD_take_of_lt buf 22 14 ' ' (by omega),
      getD_take_of_lt buf 22 15 ' ' (by omega),
      getD_take_of_lt buf 22 16 ' ' (by omega),
      getD_take_of_lt buf 22 17 ' ' (by omega),
      getD_take_of_lt buf 22 18 ' ' (by omega),
      getD_take_of_lt buf 22 19 ' ' (by omega),
      getD_take_of_lt buf 22 21 ' ' (by omega)]
    norm_num
  · intro r mode buf h
    unfold saitek_buf_parse_radiopanel
    rw [if_neg (by omega), if_neg (by simp [List.length_take]; omega)]
    rw [List.take_take, slice_take_of_le buf 45 11 10 (by omega),
      slice_take_of_le buf 45 22 10 (by omega),
      slice_take_of_le buf 45 33 10 (by omega),
      getD_take_of_lt buf 45 44 ' ' (by omega)]
    norm_num

/-- Witness for C9: a 2-byte report is rejected with -1 and no change; a
21-character multipanel write and a 44-character radiopanel write are
rejected with no change; a 23-character multipanel write equals the write
of its 22-character prefix. -/
theorem claim_C9_witness :
    saitek_proflight_multipanel_raw_event initialMultipanel 0 0 [1, 2] =
      (-1, initialMultipanel) ∧
    saitek_proflight_radiopanel_raw_event initialRadiopanel 0 0 [1, 2] =
      (-1, initialRadiopanel) ∧
    saitek_buf_parse_multipanel initialMultipanel 'R' (List.replicate 21 '1') =
      (initialMultipanel, 'R') ∧
    saitek_buf_parse_radiopanel initialRadiopanel 'R' (List.replicate 44 '1') =
      (initialRadiopanel, 'R') ∧
    saitek_buf_parse_multipanel initialMultipanel 'R' (List.replicate 23 '1') =
      saitek_buf_parse_multipanel initialMultipanel 'R'
        ((List.replicate 23 '1').take 22) ∧
    saitek_buf_parse_radiopanel initialRadiopanel 'R' (List.replicate 46 '1') =
      saitek_buf_parse_radiopanel initialRadiopanel 'R'
        ((List.replicate 46 '1').take 45) :=
  ⟨claim_C9_short_input_rejected.1 initialMultipanel [1, 2] (by decide),
   claim_C9_short_input_rejected.2.1 initialRadiopanel [1, 2] (by decide),
   claim_C9_short_input_rejected.2.2.1 initialMultipanel 'R' _ (by decide),
   claim_C9_short_input_rejected.2.2.2.1 initialRadiopanel 'R' _ (by decide),
   claim_C9_short_input_rejected.2.2.2.2.1 initialMultipanel 'R' _ (by decide),
   claim_C9_short_input_rejected.2.2.2.2.2 initialRadiopanel 'R' _ (by decide)⟩

/-! ## Padding behaviour of the display parsers (C5) -/

theorem radiopanelParseStep_length_le (acc : List Nat) (ch : Char) :
    (radiopanelParseStep acc ch).length ≤ acc.length + 1 := by
  unfold radiopanelParseStep
  split_ifs <;> cases acc <;> simp

theorem radiopanelParseConsume_spec (buf : List Char) :
    ∀ acc : List Nat, acc.length ≤ 5 →
      (radiopanelParseConsume acc buf).1.length ≤ 5 ∧
      ((radiopanelParseConsume acc buf).2 = [] ∨
        (radiopanelParseConsume acc buf).1.length = 5) := by
  induction buf with
  | nil => intro acc h; exact ⟨h, Or.inl rfl⟩
  | cons ch rest ih =>
    intro acc h
    unfold radiopanelParseConsume
    by_cases hlt : acc.length < 5
    · rw [if_pos hlt]
      exact ih _ (by have := radiopanelParseStep_length_le acc ch; omega)
    · rw [if_neg hlt]
      exact ⟨h, Or.inr (show acc.length = 5 by omega)⟩

theorem radiopanelParseConsume_short (buf : List Char) :
    ∀ acc : List Nat, acc.length + buf.length ≤ 5 →
      (radiopanelParseConsume acc buf).2 = [] ∧
      (radiopanelParseConsume acc buf).1.length ≤ acc.length + buf.length := by
  induction buf with
  | nil => intro acc h; exact ⟨rfl, by simp [radiopanelParseConsume]⟩
  | cons ch rest ih =>
    intro acc h
    simp only [List.length_cons] at h
    unfold radiopanelParseConsume
    rw [if_pos (by omega)]
    have hs := radiopanelParseStep_length_le acc ch
    have hrec := ih (radiopanelParseStep acc ch) (by omega)
    exact ⟨hrec.1, by simp only [List.length_cons]; omega⟩

theorem orDotOnLast_length (l : List Nat) : (orDotOnLast l).length = l.length := by
  cases l <;> simp [orDotOnLast]

theorem radiopanelTrailingDot_length (acc : List Nat) (rest : List Char) :
    (radiopanelTrailingDot acc rest).length = acc.length := by
  cases rest with
  | nil => rfl
  | cons ch t =>
    simp only [radiopanelTrailingDot]
    split_ifs <;> simp [orDotOnLast_length]

theorem saitek_parse_radiopanel_display_length (buf : List Char) :
    (saitek_parse_radiopanel_display buf).length = 5 := by
  have h := radiopanelParseConsume_spec buf [] (by simp)
  unfold saitek_parse_radiopanel_display
  rw [List.length_reverse, radiopanelTrailingDot_length]
  simp only [List.length_append, List.length_replicate]
  omega

theorem saitek_parse_radiopanel_display_short (buf : List Char)
    (h : buf.length < 5) :
    (saitek_parse_radiopanel_display buf).drop buf.length =
      List.replicate (5 - buf.length) PANEL_DIGIT_NULL := by
  obtain ⟨hrest, hlen⟩ := radiopanelParseConsume_short buf [] (by simp; omega)
  simp only [List.length_nil, Nat.zero_add] at hlen
  unfold saitek_parse_radiopanel_display
  rw [hrest]
  unfold radiopanelTrailingDot
  rw [List.reverse_append, List.reverse_replicate]
  have hsplit : buf.length =
      (radiopanelParseConsume [] buf).1.reverse.length + (buf.length -
        (radiopanelParseConsume [] buf).1.length) := by
    simp only [List.length_reverse]; omega
  rw [hsplit, List.drop_append, List.drop_replicate]
  congr 1
  omega

theorem saitek_parse_multipanel_display_length (buf : List Char) :
    ∀ display : List Nat,
      (saitek_parse_multipanel_display display buf).length = display.length := by
  induction buf with
  | nil => intro display; cases display <;> rfl
  | cons ch rest ih =>
    intro display
    cases display with
    | nil => rfl
    | cons d ds => simp [saitek_parse_multipanel_display, ih]

theorem saitek_parse_multipanel_display_drop (buf : List Char) :
    ∀ display : List Nat,
      (saitek_parse_multipanel_display display buf).drop buf.length =
        display.drop buf.length := by
  induction buf with
  | nil => intro display; cases display <;> rfl
  | cons ch rest ih =>
    intro display
    cases display with
    | nil => simp [saitek_parse_multipanel_display]
    | cons d ds => simp [saitek_parse_multipanel_display, ih]

/-- C5 as stated is false for the multipanel display parser: parsing an
empty text (shorter than 5 characters) into a display holding the digit
codes 1..5 writes nothing at all — every position beyond the supplied
characters keeps its old code instead of being filled with the blank
digit code. -/
theorem claim_C5_counterexample :
    saitek_parse_multipanel_display [1, 2, 3, 4, 5] [] = [1, 2, 3, 4, 5] ∧
    (saitek_parse_multipanel_display [1, 2, 3, 4, 5] []).getD 0 0 ≠
      PANEL_DIGIT_NULL := by
  decide

/-- C5 amended: the radiopanel display parser always emits exactly 5 digit
codes and, on input shorter than 5 characters, fills every position from
the input length on with the blank code; the multipanel display parser
keeps the display length but stops at the end of the input, leaving every
position from the input length on at its previous code (no blank
padding). -/
theorem claim_C5_amended (bufR : List Char) (display : List Nat)
    (buf : List Char) (h : bufR.length < 5) :
    ((saitek_parse_radiopanel_display bufR).length = 5 ∧
     (saitek_parse_radiopanel_display bufR).drop bufR.length =
       List.replicate (5 - bufR.length) PANEL_DIGIT_NULL) ∧
    ((saitek_parse_multipanel_display display buf).length = display.length ∧
     (saitek_parse_multipanel_display display buf).drop buf.length =
       display.drop buf.length) :=
  ⟨⟨saitek_parse_radiopanel_display_length bufR,
    saitek_parse_radiopanel_display_short bufR h⟩,
   ⟨saitek_parse_multipanel_display_length buf display,
    saitek_parse_multipanel_display_drop buf display⟩⟩

/-- Witness for C5 (amended): the one-character text "7" parsed by the
radiopanel parser gives the digit 7 followed by four blanks; the same text
parsed by the multipanel parser into the display 1..5 gives 7 followed by
the old codes 2..5. -/
theorem claim_C5_amended_witness :
    (saitek_parse_radiopanel_display ['7']).length = 5 ∧
    (saitek_parse_radiopanel_display ['7']).drop 1 =
      List.replicate 4 PANEL_DIGIT_NULL ∧
    (saitek_parse_multipanel_display [1, 2, 3, 4, 5] ['7']).length = 5 ∧
    (saitek_parse_multipanel_display [1, 2, 3, 4, 5] ['7']).drop 1 =
      [2, 3, 4, 5] :=
  ⟨(claim_C5_amended ['7'] [1, 2, 3, 4, 5] ['7'] (by decide)).1.1,
   (claim_C5_amended ['7'] [1, 2, 3, 4, 5] ['7'] (by decide)).1.2,
   (claim_C5_amended ['7'] [1, 2, 3, 4, 5] ['7'] (by decide)).2.1,
   (claim_C5_amended ['7'] [1, 2, 3, 4, 5] ['7'] (by decide)).2.2⟩

/-! ## Display round trip (C7) -/

theorem multipanelDecodeDigit_encode (c : Char)
    (h : c.isDigit = true ∨ c = ' ' ∨ c = '-') :
    multipanelDecodeDigit (multipanelEncodeChar c) = c := by
  rcases h with h | h | h
  · have hb : 48 ≤ c.toNat ∧ c.toNat ≤ 57 := by
      simp [Char.isDigit, UInt32.le_def, UInt32.toNat, BitVec.le_def] at h
      unfold Char.toNat UInt32.toNat
      omega
    have hne1 : c ≠ ' ' := by rintro rfl; exact absurd h (by decide)
    have hne2 : c ≠ '-' := by rintro rfl; exact absurd h (by decide)
    unfold multipanelEncodeChar multipanelDecodeDigit
    rw [if_neg hne1, if_neg hne2, if_pos h]
    rw [if_neg (by unfold PANEL_DIGIT_NULL; omega),
      if_neg (by unfold PANEL_DIGIT_MINUS; omega), if_pos (by omega)]
    have he : 48 + (c.toNat - 48) = c.toNat := by omega
    rw [he, Char.ofNat_toNat]
  · rw [h]; decide
  · rw [h]; decide

theorem saitek_parse_multipanel_display_full (s : List Char) :
    ∀ display : List Nat, s.length ≤ display.length →
      saitek_parse_multipanel_display display s =
        s.map multipanelEncodeChar ++ display.drop s.length := by
  induction s with
  | nil => intro display h; cases display <;> rfl
  | cons c t ih =>
    intro display h
    cases display with
    | nil => simp at h
    | cons d ds =>
      simp only [List.length_cons] at h
      simp [saitek_parse_multipanel_display, ih ds (by omega)]

/-- Modelled from the spec: the source has no `canonicalize` function; the
spec describes canonical display text as base characters (digits, spaces,
minus signs), each optionally carrying one trailing dot, padded with
spaces to the display width of 5 base characters, with digits and dots
surviving the round trip.  The padding counts only non-dot characters. -/
def canonicalize (s : List Char) : List Char :=
  s ++ List.replicate (5 - (s.filter (fun c => c != '.')).length) ' '

/-- C7 as stated is false for the multipanel display codec: the text "1."
is made only of a digit with one trailing dot, yet parsing it into a blank
display and formatting the result yields "1    " — the dot was turned into
a blank digit slot — which is not the canonicalization "1.    " of the
input. -/
theorem claim_C7_counterexample :
    saitek_format_multipanel_display
        (saitek_parse_multipanel_display
          (List.replicate 5 PANEL_DIGIT_NULL) ['1', '.']) 5 ≠
      canonicalize ['1', '.'] := by
  decide

/-- C7 amended: for the multipanel display codec the round trip is exact
precisely on dot-free canonical text of full width: parsing any
5-character string of digits, spaces and minus signs into any 5-slot
display and formatting the result returns the string unchanged (in
particular "12345" round-trips exactly); a dot is not representable — the
parser maps it to the blank digit code consuming a slot and the formatter
never emits one. -/
theorem claim_C7_amended (display : List Nat) (s : List Char)
    (hd : display.length = 5) (hs : s.length = 5)
    (hc : ∀ c ∈ s, c.isDigit = true ∨ c = ' ' ∨ c = '-') :
    saitek_format_multipanel_display
        (saitek_parse_multipanel_display display s) 5 = s := by
  rw [saitek_parse_multipanel_display_full s display (by omega)]
  rw [hs]
  simp only [List.drop_eq_nil_of_le (le_of_eq hd), List.append_nil]
  unfold saitek_format_multipanel_display
  rw [List.take_of_length_le (by simp [hs]), List.take_of_length_le (by simp [hs]),
    List.map_map]
  refine (List.map_congr_left ?_).trans (List.map_id s)
  intro c hcs
  exact multipanelDecodeDigit_encode c (hc c hcs)

/-- Witness for C7 (amended): writing "12345" into a blank 5-slot display
and formatting it returns exactly "12345". -/
theorem claim_C7_amended_witness :
    saitek_format_multipanel_display
        (saitek_parse_multipanel_display (List.replicate 5 PANEL_DIGIT_NULL)
          ['1', '2', '3', '4', '5']) 5 = ['1', '2', '3', '4', '5'] :=
  claim_C7_amended (List.replicate 5 PANEL_DIGIT_NULL) ['1', '2', '3', '4', '5']
    (by decide) (by decide) (by decide)
